import Mathlib

/-!
Shallow embedding of the object-culling and draw-submission core of the
rend3 renderer (src/rend3/src/routines/opaque.rs) together with the
animation example's `update` function (src/examples/animation/src/lib.rs).

GPU handles (pipelines, bind groups, buffers) are modelled as plain data;
render-pass and command-encoder recording is modelled as lists of emitted
commands; a Rust panic is modelled as `Option.none`.
-/

/-- The two execution strategies of the renderer (host vs device). -/
inductive RendererMode where
  | CPU : RendererMode
  | GPU : RendererMode
deriving DecidableEq, Repr

/-- `ModeData<C, G>`: the closed two-variant strategy container.  Exactly one
variant is populated, by construction of the enum. -/
inductive ModeData (C G : Type) where
  | CPU : C → ModeData C G
  | GPU : G → ModeData C G
deriving Repr

/-- The strategy tag of a `ModeData` value. -/
def ModeData.mode : ModeData C G → RendererMode
  | .CPU _ => .CPU
  | .GPU _ => .GPU

/-- `ModeData::as_gpu`: returns the GPU payload, panicking (modelled as
`none`) when the value is CPU-tagged. -/
def ModeData.as_gpu : ModeData C G → Option G
  | .CPU _ => none
  | .GPU g => some g

/-- The kind of GPU resource held by a bind group, used to compare the
bind-group layouts of the depth prepass and the opaque draw. -/
inductive BindingKind where
  | samplers : BindingKind
  | culledOutput : BindingKind
  | directionalLight : BindingKind
  | shaderUniform : BindingKind
  | materialTable : BindingKind
  | textureArray : BindingKind
  | perBatchMaterial : BindingKind
deriving DecidableEq, Repr

/-- A `wgpu::BindGroup` handle, modelled as its resource kind plus an id. -/
structure BindGroup where
  kind : BindingKind
  id : Nat
deriving DecidableEq, Repr

/-- A scene object: mesh handle, material handle, world transform
(the transform is opaque to culling bookkeeping and carried as data). -/
structure InternalObject where
  objId : Nat
  mesh : Nat
  material : Nat
deriving DecidableEq, Repr

/-- The grouping key of an object: (mesh handle, material handle). -/
def InternalObject.key (o : InternalObject) : Nat × Nat := (o.mesh, o.material)

/-- Modelled from the spec: the camera manager.  src/ lacks the camera
internals and the culler bodies; the frustum bounding-volume test is carried
as a boolean visibility function, shared by both strategies ("evaluate the
same frustum test per object"). -/
structure CameraManager where
  inFrustum : InternalObject → Bool

/-- The material manager: GPU-resident material table.  `gpu_bind_group`
is the GPU-visible binding of the whole table (`gpu_get_bind_group`);
`cpu_get_bind_group` is the per-material bind group used by the host path. -/
structure MaterialManager where
  gpu_bind_group_id : Nat

/-- `MaterialManager::gpu_get_bind_group`: the material table binding. -/
def MaterialManager.gpu_get_bind_group (_m : MaterialManager) : BindGroup :=
  ⟨.materialTable, 0⟩

/-- Modelled from the spec: the per-batch material bind group looked up by
handle for the host draw path (the host culling `run` body is not in src/). -/
def MaterialManager.cpu_get_bind_group (_m : MaterialManager) (handle : Nat) :
    BindGroup :=
  ⟨.perBatchMaterial, handle⟩

/-- The process-wide sampler set. -/
structure Samplers where
  linear_nearest_bg : BindGroup

/-- Shader interface handles (bind-group layouts); opaque to this core. -/
structure ShaderInterfaces where
  ifaceId : Nat

/-- The GPU device handle; opaque to this core. -/
structure Device where
  devId : Nat

/-- One host-side draw call: (mesh, material) pair plus the contiguous
instance range assigned to it in the per-frame instance buffer. -/
structure CPUDrawCall where
  mesh : Nat
  material : Nat
  instanceStart : Nat
  instanceCount : Nat
deriving DecidableEq, Repr

/-- Commands recorded into a compute command encoder by the device culler,
following the spec's three steps. -/
inductive GpuCommand where
  | frustumTestPass : Nat → GpuCommand
  | compactPass : GpuCommand
  | writeIndirectArgs : GpuCommand
deriving DecidableEq, Repr

/-- A `wgpu::CommandEncoder`: the list of commands recorded so far. -/
structure CommandEncoder where
  commands : List GpuCommand
deriving DecidableEq, Repr

/-- The device culler's indirect-argument buffer, as it stands after the
recorded commands have executed on the device (no host readback). -/
structure GPUIndirectData where
  indirect_args : List CPUDrawCall
deriving DecidableEq, Repr

/-- The strategy-tagged result of one frame's culling step.
`output_objects` is the content of the per-object output buffer behind
`output_bg`: the surviving objects, written by the host culler or (after
device execution) by the device culler's compaction pass. -/
structure CulledObjectSet where
  output_bg : BindGroup
  output_objects : List InternalObject
  calls : ModeData (List CPUDrawCall) GPUIndirectData

/-- Commands recorded into an active render pass. -/
inductive RenderCommand where
  | bindMeshBuffers : RenderCommand
  | setPipeline : Nat → RenderCommand
  | setBindGroup : Nat → BindGroup → RenderCommand
  | drawIndexed : CPUDrawCall → RenderCommand
  | multiDrawIndirect : GPUIndirectData → RenderCommand
deriving DecidableEq, Repr

/-- First-seen order of distinct (mesh, material) keys in a list of
objects: the grouping order of host draw batches. -/
def seenKeys : List InternalObject → List (Nat × Nat)
  | [] => []
  | o :: rest => o.key :: (seenKeys rest).filter (fun k => k ≠ o.key)

/-- The objects of one batch: the survivors whose key is `k`, in input
order. -/
def batchObjects (k : Nat × Nat) (survivors : List InternalObject) :
    List InternalObject :=
  survivors.filter (fun o => o.key = k)

/-- The per-frame instance buffer: survivors reordered so that each batch's
instances are contiguous, batches in first-seen key order. -/
def instanceBuffer (survivors : List InternalObject) : List InternalObject :=
  (seenKeys survivors).flatMap (fun k => batchObjects k survivors)

/-- Assign contiguous instance ranges to the batches, in batch order. -/
def buildCalls (survivors : List InternalObject) :
    List (Nat × Nat) → Nat → List CPUDrawCall
  | [], _ => []
  | k :: ks, start =>
      let n := (batchObjects k survivors).length
      ⟨k.1, k.2, start, n⟩ :: buildCalls survivors ks (start + n)

/-- The host culler handle (pipelines/layouts it owns are opaque here). -/
structure CpuCuller where
  cullerId : Nat

/-- The device culler handle. -/
structure GpuCuller where
  cullerId : Nat

/-- Borrowed-argument struct of `CpuCuller::cull` (no command encoder). -/
structure CpuCullerCullArgs where
  device : Device
  camera : CameraManager
  interfaces : ShaderInterfaces
  objects : List InternalObject

/-- Modelled from the spec: the host culler body (src/ has only its caller).
For each object, test visibility against the camera frustum and discard
failures; group survivors by (mesh, material) in first-seen order; build one
draw call per batch with contiguous instance ranges. -/
def CpuCuller.cull (_c : CpuCuller) (args : CpuCullerCullArgs) :
    CulledObjectSet :=
  let survivors := args.objects.filter args.camera.inFrustum
  { output_bg := ⟨.culledOutput, 0⟩
    output_objects := instanceBuffer survivors
    calls := .CPU (buildCalls survivors (seenKeys survivors) 0) }

/-- Borrowed-argument struct of `GpuCuller::cull` (owns the encoder). -/
structure GpuCullerCullArgs where
  device : Device
  encoder : CommandEncoder
  interfaces : ShaderInterfaces
  materials : MaterialManager
  camera : CameraManager
  objects : List InternalObject

/-- Device-side visibility flags: step (1) of the device culler, the same
frustum test per object, evaluated on the accelerator. -/
def frustumFlags (camera : CameraManager) (objects : List InternalObject) :
    List Bool :=
  objects.map camera.inFrustum

/-- Device-side stream compaction: step (2), keep the objects whose flag is
set. -/
def compact : List Bool → List InternalObject → List InternalObject
  | [], _ => []
  | _, [] => []
  | b :: bs, o :: os => if b then o :: compact bs os else compact bs os

/-- Modelled from the spec: the device culler body (src/ has only its
caller).  Records the three passes into the encoder; the result buffer
holds the compacted survivors and the per-batch indirect draw arguments as
they will stand after device execution. -/
def GpuCuller.cull (_c : GpuCuller) (args : GpuCullerCullArgs) :
    CulledObjectSet × CommandEncoder :=
  let survivors := compact (frustumFlags args.camera args.objects) args.objects
  let data : GPUIndirectData :=
    { indirect_args := buildCalls survivors (seenKeys survivors) 0 }
  ({ output_bg := ⟨.culledOutput, 0⟩,
     output_objects := survivors,
     calls := .GPU data },
   { commands := args.encoder.commands ++
       [.frustumTestPass args.objects.length, .compactPass,
        .writeIndirectArgs] })

/-- Modelled from the spec: `culling::cpu::run` (src/ has only its call
sites).  Issues one draw call per host batch, rebinding the per-batch
material bind group at the fixed slot `material_slot`; the sampler argument
pair mirrors the Rust signature and is not rebound here. -/
def cpuRun (draws : List CPUDrawCall) (samplers : Samplers)
    (sampler_slot : Nat) (materials : MaterialManager)
    (material_slot : Nat) : List RenderCommand :=
  match draws with
  | [] => []
  | d :: rest =>
      .setBindGroup material_slot (materials.cpu_get_bind_group d.material) ::
      .drawIndexed d ::
      cpuRun rest samplers sampler_slot materials material_slot

/-- Modelled from the spec: `culling::gpu::run` (src/ has only its call
sites).  Issues a single indirect multi-draw from the device buffer. -/
def gpuRun (data : GPUIndirectData) : List RenderCommand :=
  [.multiDrawIndirect data]

/-- Borrowed-argument struct of `OpaquePass::cull_opaque`. -/
structure OpaquePassCullArgs where
  device : Device
  encoder : CommandEncoder
  culler : ModeData CpuCuller GpuCuller
  materials : MaterialManager
  interfaces : ShaderInterfaces
  camera : CameraManager
  objects : List InternalObject

/-- Borrowed-argument struct of `OpaquePass::prepass`.  `meshes` is the
GPU-resident mesh buffer handle, opaque here. -/
structure OpaquePassPrepassArgs where
  materials : MaterialManager
  samplers : Samplers
  texture_bg : ModeData Unit BindGroup
  culled_objects : CulledObjectSet

/-- Borrowed-argument struct of `OpaquePass::draw`. -/
structure OpaquePassDrawArgs where
  materials : MaterialManager
  samplers : Samplers
  directional_light_bg : BindGroup
  texture_bg : ModeData Unit BindGroup
  shader_uniform_bg : BindGroup
  culled_objects : CulledObjectSet

/-- The opaque pass: exactly the two pipeline handles stored at
construction. -/
structure OpaquePass where
  depth_pipeline : Nat
  opaque_pipeline : Nat
deriving DecidableEq, Repr

/-- `OpaquePass::new`. -/
def OpaquePass.new (depth_pipeline opaque_pipeline : Nat) : OpaquePass :=
  { depth_pipeline := depth_pipeline, opaque_pipeline := opaque_pipeline }

/-- `OpaquePass::cull_opaque`: dispatch to the host or device culler per the
active strategy.  Returns the culled set together with the encoder as it
stands after the call (the host branch never hands the encoder over). -/
def OpaquePass.cull_opaque (_self : OpaquePass) (args : OpaquePassCullArgs) :
    CulledObjectSet × CommandEncoder :=
  match args.culler with
  | .CPU cpu_culler =>
      (cpu_culler.cull
        { device := args.device
          camera := args.camera
          interfaces := args.interfaces
          objects := args.objects },
       args.encoder)
  | .GPU gpu_culler =>
      gpu_culler.cull
        { device := args.device
          encoder := args.encoder
          interfaces := args.interfaces
          materials := args.materials
          camera := args.camera
          objects := args.objects }

/-- `OpaquePass::prepass`: the commands recorded into the render pass, or
`none` when the pass panics (`as_gpu` on a CPU-tagged texture binding). -/
def OpaquePass.prepass (self : OpaquePass) (args : OpaquePassPrepassArgs) :
    Option (List RenderCommand) :=
  let head : List RenderCommand :=
    [.bindMeshBuffers,
     .setPipeline self.depth_pipeline,
     .setBindGroup 0 args.samplers.linear_nearest_bg,
     .setBindGroup 1 args.culled_objects.output_bg]
  match args.culled_objects.calls with
  | .CPU draws =>
      some (head ++ cpuRun draws args.samplers 0 args.materials 2)
  | .GPU data =>
      match args.texture_bg.as_gpu with
      | none => none
      | some tbg =>
          some (head ++
            [.setBindGroup 2 args.materials.gpu_get_bind_group,
             .setBindGroup 3 tbg] ++ gpuRun data)

/-- `OpaquePass::draw`: the commands recorded into the render pass, or
`none` when the pass panics. -/
def OpaquePass.draw (self : OpaquePass) (args : OpaquePassDrawArgs) :
    Option (List RenderCommand) :=
  let head : List RenderCommand :=
    [.bindMeshBuffers,
     .setPipeline self.opaque_pipeline,
     .setBindGroup 0 args.samplers.linear_nearest_bg,
     .setBindGroup 1 args.culled_objects.output_bg,
     .setBindGroup 2 args.directional_light_bg,
     .setBindGroup 3 args.shader_uniform_bg]
  match args.culled_objects.calls with
  | .CPU draws =>
      some (head ++ cpuRun draws args.samplers 0 args.materials 4)
  | .GPU data =>
      match args.texture_bg.as_gpu with
      | none => none
      | some tbg =>
          some (head ++
            [.setBindGroup 4 args.materials.gpu_get_bind_group,
             .setBindGroup 5 tbg] ++ gpuRun data)

/-- The slot indices of the bind-group commands of a recorded command list,
in issue order. -/
def slotsOf : List RenderCommand → List Nat
  | [] => []
  | .setBindGroup s _ :: rest => s :: slotsOf rest
  | _ :: rest => slotsOf rest

/-- The (slot, kind) pairs of the bind-group commands, in issue order. -/
def bindsOf : List RenderCommand → List (Nat × BindingKind)
  | [] => []
  | .setBindGroup s bg :: rest => (s, bg.kind) :: bindsOf rest
  | _ :: rest => bindsOf rest

/-- Whether a command is a host-emitted (direct, per-batch) draw. -/
def RenderCommand.isHostDraw : RenderCommand → Bool
  | .drawIndexed _ => true
  | _ => false

/-- Whether a command is a device indirect multi-draw. -/
def RenderCommand.isIndirectDraw : RenderCommand → Bool
  | .multiDrawIndirect _ => true
  | _ => false

/-! The animation example (src/examples/animation/src/lib.rs).  The `f32`
time values are modelled as exact rationals; Rust's `%` on floats is the
IEEE `fmod` (remainder of truncating division), which is computed exactly,
so the truncating remainder on `ℚ` matches it on the represented values. -/

/-- Truncation toward zero on the rationals. -/
def rtrunc (q : ℚ) : ℤ := if 0 ≤ q then ⌊q⌋ else ⌈q⌉

/-- Rust's `%` on floats: remainder of truncating division. -/
def fmod (x d : ℚ) : ℚ := x - d * (rtrunc (x / d) : ℚ)

/-- One animation as the example sees it (only `inner.duration` is read). -/
structure Animation where
  duration : ℚ
deriving DecidableEq, Repr

/-- The loaded glTF scene as the example sees it. -/
structure LoadedGltfScene where
  animations : List Animation
deriving DecidableEq, Repr

/-- The example's per-scene application data (the fields `update`
touches). -/
structure InitializedData where
  loaded_scene : LoadedGltfScene
  animation_time : ℚ
deriving DecidableEq, Repr

/-- The example's `update`: advances `animation_time` by `delta` modulo the
duration of animation 0, then poses that frame (posing is a renderer side
effect outside this core).  Indexing `animations[0]` panics on an empty
animation list, modelled as `none`. -/
def update (delta : ℚ) (init_data : InitializedData) :
    Option InitializedData :=
  match init_data.loaded_scene.animations with
  | [] => none
  | a :: _ =>
      some { init_data with
               animation_time :=
                 fmod (init_data.animation_time + delta) a.duration }

/-! Helper lemmas. -/

/-- Device-side flag-based compaction of a list agrees with host-side
filtering. -/
theorem compact_map_eq_filter (vis : InternalObject → Bool) :
    ∀ l : List InternalObject, compact (l.map vis) l = l.filter vis := by
  intro l
  induction l with
  | nil => rfl
  | cons o os ih =>
      by_cases h : vis o
      · simp [compact, List.filter_cons, h, ih]
      · simp only [Bool.not_eq_true] at h
        simp [compact, List.filter_cons, h, ih]

/-- Every object of a list has its key among the first-seen keys. -/
theorem key_mem_seenKeys {o : InternalObject} :
    ∀ {l : List InternalObject}, o ∈ l → o.key ∈ seenKeys l := by
  intro l
  induction l with
  | nil => intro h; cases h
  | cons x xs ih =>
      intro h
      rcases List.mem_cons.mp h with h | h
      · subst h; exact List.mem_cons_self _ _
      · by_cases hk : o.key = x.key
        · rw [hk]; exact List.mem_cons_self _ _
        · refine List.mem_cons_of_mem _ ?_
          exact List.mem_filter.mpr ⟨ih h, by simpa using hk⟩

/-- Membership in the reordered instance buffer coincides with membership
in the survivor list. -/
theorem mem_instanceBuffer {o : InternalObject}
    {s : List InternalObject} : o ∈ instanceBuffer s ↔ o ∈ s := by
  unfold instanceBuffer
  rw [List.mem_flatMap]
  constructor
  · rintro ⟨k, _, hb⟩
    exact (List.mem_filter.mp hb).1
  · intro hs
    refine ⟨o.key, key_mem_seenKeys hs, ?_⟩
    unfold batchObjects
    exact List.mem_filter.mpr ⟨hs, by simp⟩

/-- The truncating remainder of a nonnegative rational by a positive one
lies in `[0, d)`. -/
theorem fmod_mem_Ico {x d : ℚ} (hx : 0 ≤ x) (hd : 0 < d) :
    0 ≤ fmod x d ∧ fmod x d < d := by
  have hq : 0 ≤ x / d := div_nonneg hx hd.le
  have hr : rtrunc (x / d) = ⌊x / d⌋ := if_pos hq
  have hfe : fmod x d = d * Int.fract (x / d) := by
    rw [fmod, hr, Int.fract]
    rw [mul_sub]
    rw [mul_div_cancel₀ x hd.ne.symm]
  constructor
  · rw [hfe]
    exact mul_nonneg hd.le (Int.fract_nonneg _)
  · rw [hfe]
    have h1 := mul_lt_mul_of_pos_left (Int.fract_lt_one (x / d)) hd
    simpa using h1

/-- The slot indices issued by the host per-batch emission: the fixed
material slot, once per batch. -/
theorem slotsOf_cpuRun (draws : List CPUDrawCall) (smp : Samplers)
    (i : Nat) (mats : MaterialManager) (slot : Nat) :
    slotsOf (cpuRun draws smp i mats slot) =
      List.replicate draws.length slot := by
  induction draws with
  | nil => rfl
  | cons d ds ih => simp [cpuRun, slotsOf, ih, List.replicate]

/-- The (slot, kind) pairs issued by the host per-batch emission. -/
theorem bindsOf_cpuRun (draws : List CPUDrawCall) (smp : Samplers)
    (i : Nat) (mats : MaterialManager) (slot : Nat) :
    bindsOf (cpuRun draws smp i mats slot) =
      List.replicate draws.length (slot, BindingKind.perBatchMaterial) := by
  induction draws with
  | nil => rfl
  | cons d ds ih => simp [cpuRun, bindsOf, ih, List.replicate,
                          MaterialManager.cpu_get_bind_group]

/-- Membership in the host per-batch emission. -/
theorem mem_cpuRun {c : RenderCommand} {draws : List CPUDrawCall}
    {smp : Samplers} {i : Nat} {mats : MaterialManager} {slot : Nat} :
    c ∈ cpuRun draws smp i mats slot ↔
      ∃ d ∈ draws,
        c = .setBindGroup slot (mats.cpu_get_bind_group d.material) ∨
        c = .drawIndexed d := by
  induction draws with
  | nil => simp [cpuRun]
  | cons d ds ih =>
      simp only [cpuRun, List.mem_cons, ih]
      constructor
      · rintro (h | h | ⟨e, he, hc⟩)
        · exact ⟨d, Or.inl rfl, Or.inl h⟩
        · exact ⟨d, Or.inl rfl, Or.inr h⟩
        · exact ⟨e, Or.inr he, hc⟩
      · rintro ⟨e, he | he, hc⟩
        · subst he
          rcases hc with hc | hc
          · exact Or.inl hc
          · exact Or.inr (Or.inl hc)
        · exact Or.inr (Or.inr ⟨e, he, hc⟩)

/-- The host per-batch emission contains no indirect draw. -/
theorem cpuRun_no_indirect {draws : List CPUDrawCall} {smp : Samplers}
    {i : Nat} {mats : MaterialManager} {slot : Nat} :
    ∀ c ∈ cpuRun draws smp i mats slot, (!c.isIndirectDraw) = true := by
  intro c hc
  rcases mem_cpuRun.mp hc with ⟨d, _, rfl | rfl⟩ <;> rfl

/-- `prepass` on a host-tagged culled set: the recorded commands. -/
theorem prepass_cpu_eq (p : OpaquePass) (mats : MaterialManager)
    (smp : Samplers) (tex : ModeData Unit BindGroup) (obg : BindGroup)
    (oobj : List InternalObject) (draws : List CPUDrawCall) :
    p.prepass ⟨mats, smp, tex, ⟨obg, oobj, .CPU draws⟩⟩ =
      some (.bindMeshBuffers :: .setPipeline p.depth_pipeline ::
            .setBindGroup 0 smp.linear_nearest_bg :: .setBindGroup 1 obg ::
            cpuRun draws smp 0 mats 2) := rfl

/-- `prepass` on a device-tagged culled set with a device texture
binding: the recorded commands. -/
theorem prepass_gpu_eq (p : OpaquePass) (mats : MaterialManager)
    (smp : Samplers) (tbg : BindGroup) (obg : BindGroup)
    (oobj : List InternalObject) (data : GPUIndirectData) :
    p.prepass ⟨mats, smp, .GPU tbg, ⟨obg, oobj, .GPU data⟩⟩ =
      some [.bindMeshBuffers, .setPipeline p.depth_pipeline,
            .setBindGroup 0 smp.linear_nearest_bg, .setBindGroup 1 obg,
            .setBindGroup 2 mats.gpu_get_bind_group, .setBindGroup 3 tbg,
            .multiDrawIndirect data] := rfl

/-- `prepass` panics on a device-tagged culled set without a device
texture binding. -/
theorem prepass_gpu_no_tex (p : OpaquePass) (mats : MaterialManager)
    (smp : Samplers) (obg : BindGroup) (oobj : List InternalObject)
    (data : GPUIndirectData) :
    p.prepass ⟨mats, smp, .CPU (), ⟨obg, oobj, .GPU data⟩⟩ = none := rfl

/-- `draw` on a host-tagged culled set: the recorded commands. -/
theorem draw_cpu_eq (p : OpaquePass) (mats : MaterialManager)
    (smp : Samplers) (dl : BindGroup) (tex : ModeData Unit BindGroup)
    (su : BindGroup) (obg : BindGroup) (oobj : List InternalObject)
    (draws : List CPUDrawCall) :
    p.draw ⟨mats, smp, dl, tex, su, ⟨obg, oobj, .CPU draws⟩⟩ =
      some (.bindMeshBuffers :: .setPipeline p.opaque_pipeline ::
            .setBindGroup 0 smp.linear_nearest_bg :: .setBindGroup 1 obg ::
            .setBindGroup 2 dl :: .setBindGroup 3 su ::
            cpuRun draws smp 0 mats 4) := rfl

/-- `draw` on a device-tagged culled set with a device texture binding:
the recorded commands. -/
theorem draw_gpu_eq (p : OpaquePass) (mats : MaterialManager)
    (smp : Samplers) (dl : BindGroup) (tbg : BindGroup) (su : BindGroup)
    (obg : BindGroup) (oobj : List InternalObject)
    (data : GPUIndirectData) :
    p.draw ⟨mats, smp, dl, .GPU tbg, su, ⟨obg, oobj, .GPU data⟩⟩ =
      some [.bindMeshBuffers, .setPipeline p.opaque_pipeline,
            .setBindGroup 0 smp.linear_nearest_bg, .setBindGroup 1 obg,
            .setBindGroup 2 dl, .setBindGroup 3 su,
            .setBindGroup 4 mats.gpu_get_bind_group, .setBindGroup 5 tbg,
            .multiDrawIndirect data] := rfl

/-- `draw` panics on a device-tagged culled set without a device texture
binding. -/
theorem draw_gpu_no_tex (p : OpaquePass) (mats : MaterialManager)
    (smp : Samplers) (dl : BindGroup) (su : BindGroup) (obg : BindGroup)
    (oobj : List InternalObject) (data : GPUIndirectData) :
    p.draw ⟨mats, smp, dl, .CPU (), su, ⟨obg, oobj, .GPU data⟩⟩ = none := rfl

/-! Claim theorems. -/

/-- C1: for every fixed camera and object list, the set of surviving
(visible) objects produced by the host-strategy culler equals the set
produced by the device-strategy culler, compared by object identity. -/
theorem cull_strategy_equivalence (cc : CpuCuller) (gc : GpuCuller)
    (device : Device) (enc : CommandEncoder) (ifaces : ShaderInterfaces)
    (mats : MaterialManager) (camera : CameraManager)
    (objects : List InternalObject) :
    (∀ o : InternalObject,
      o ∈ (cc.cull ⟨device, camera, ifaces, objects⟩).output_objects ↔
      o ∈ ((gc.cull
            ⟨device, enc, ifaces, mats, camera, objects⟩).1).output_objects) ∧
    (∀ i : Nat,
      i ∈ ((cc.cull ⟨device, camera, ifaces, objects⟩).output_objects.map
            InternalObject.objId) ↔
      i ∈ (((gc.cull
            ⟨device, enc, ifaces, mats, camera,
             objects⟩).1).output_objects.map InternalObject.objId)) := by
  have hcpu : (cc.cull ⟨device, camera, ifaces, objects⟩).output_objects =
      instanceBuffer (objects.filter camera.inFrustum) := rfl
  have hgpu : ((gc.cull
      ⟨device, enc, ifaces, mats, camera, objects⟩).1).output_objects =
      compact (frustumFlags camera objects) objects := rfl
  have hmem : ∀ o : InternalObject,
      o ∈ (cc.cull ⟨device, camera, ifaces, objects⟩).output_objects ↔
      o ∈ ((gc.cull
            ⟨device, enc, ifaces, mats, camera,
             objects⟩).1).output_objects := by
    intro o
    rw [hcpu, hgpu, mem_instanceBuffer, frustumFlags,
        compact_map_eq_filter]
  refine ⟨hmem, ?_⟩
  intro i
  simp only [List.mem_map]
  constructor
  · rintro ⟨o, ho, hi⟩
    exact ⟨o, (hmem o).mp ho, hi⟩
  · rintro ⟨o, ho, hi⟩
    exact ⟨o, (hmem o).mpr ho, hi⟩

/-- C10: the animation example's `update` sets `animation_time` to
(old + delta) mod the duration of animation 0, which stays in
[0, duration) for nonnegative time and delta and positive duration, and
`update` panics (none) when the loaded scene's animation list is empty. -/
theorem update_wraps_time_and_panics_on_empty :
    (∀ (d : InitializedData) (delta : ℚ),
        d.loaded_scene.animations = [] → update delta d = none) ∧
    (∀ (d : InitializedData) (delta : ℚ) (a : Animation)
        (rest : List Animation),
        d.loaded_scene.animations = a :: rest →
        update delta d =
          some { d with animation_time := fmod (d.animation_time + delta) a.duration } ∧
        (0 ≤ delta → 0 ≤ d.animation_time → 0 < a.duration →
          0 ≤ fmod (d.animation_time + delta) a.duration ∧
          fmod (d.animation_time + delta) a.duration < a.duration)) := by
  constructor
  · rintro ⟨⟨anims⟩, t⟩ delta h
    simp only at h
    subst h
    rfl
  · rintro ⟨⟨anims⟩, t⟩ delta a rest h
    simp only at h
    subst h
    refine ⟨rfl, ?_⟩
    intro hdelta ht hdur
    exact fmod_mem_Ico (add_nonneg ht hdelta) hdur

/-- Witness for C10 at concrete inputs. -/
theorem update_wraps_time_witness :
    update 3 ⟨⟨[]⟩, 0⟩ = none ∧
    update 3 ⟨⟨[⟨2⟩]⟩, 1⟩ = some ⟨⟨[⟨2⟩]⟩, fmod ((1 : ℚ) + 3) 2⟩ ∧
    0 ≤ fmod ((1 : ℚ) + 3) 2 ∧ fmod ((1 : ℚ) + 3) 2 < 2 := by
  have h1 := update_wraps_time_and_panics_on_empty.1 ⟨⟨[]⟩, 0⟩ 3 rfl
  have h2 :=
    update_wraps_time_and_panics_on_empty.2 ⟨⟨[⟨2⟩]⟩, 1⟩ 3 ⟨2⟩ [] rfl
  exact ⟨h1, h2.1, h2.2 (by decide) (by decide) (by decide)⟩

/-- C2: every culled set produced by `cull_opaque` populates exactly one
of the host draw-call list and the device indirect binding — never both,
never neither — its tag equals the configured strategy selector, and each
consumer is a single exhaustive branch on the tag: host-tagged sets yield
no indirect draw and device-tagged sets yield no host-emitted draw. -/
theorem culled_set_tag_invariant :
    (∀ (self : OpaquePass) (dev : Device) (enc : CommandEncoder)
       (culler : ModeData CpuCuller GpuCuller) (mats : MaterialManager)
       (ifc : ShaderInterfaces) (cam : CameraManager)
       (objs : List InternalObject),
       Xor'
         (∃ draws, ((OpaquePass.cull_opaque self
             ⟨dev, enc, culler, mats, ifc, cam, objs⟩).1).calls =
           ModeData.CPU draws)
         (∃ data, ((OpaquePass.cull_opaque self
             ⟨dev, enc, culler, mats, ifc, cam, objs⟩).1).calls =
           ModeData.GPU data) ∧
       ((OpaquePass.cull_opaque self
           ⟨dev, enc, culler, mats, ifc, cam, objs⟩).1).calls.mode =
         culler.mode) ∧
    (∀ (p : OpaquePass) (mats : MaterialManager) (smp : Samplers)
       (tex : ModeData Unit BindGroup) (obg : BindGroup)
       (oobj : List InternalObject) (draws : List CPUDrawCall),
       ∃ cmds, p.prepass ⟨mats, smp, tex, ⟨obg, oobj, .CPU draws⟩⟩ =
           some cmds ∧
         cmds.all (fun c => ! c.isIndirectDraw) = true) ∧
    (∀ (p : OpaquePass) (mats : MaterialManager) (smp : Samplers)
       (tbg : BindGroup) (obg : BindGroup) (oobj : List InternalObject)
       (data : GPUIndirectData),
       ∃ cmds, p.prepass ⟨mats, smp, .GPU tbg, ⟨obg, oobj, .GPU data⟩⟩ =
           some cmds ∧
         cmds.all (fun c => ! c.isHostDraw) = true) ∧
    (∀ (p : OpaquePass) (mats : MaterialManager) (smp : Samplers)
       (dl : BindGroup) (tex : ModeData Unit BindGroup) (su : BindGroup)
       (obg : BindGroup) (oobj : List InternalObject)
       (draws : List CPUDrawCall),
       ∃ cmds, p.draw ⟨mats, smp, dl, tex, su, ⟨obg, oobj, .CPU draws⟩⟩ =
           some cmds ∧
         cmds.all (fun c => ! c.isIndirectDraw) = true) ∧
    (∀ (p : OpaquePass) (mats : MaterialManager) (smp : Samplers)
       (dl : BindGroup) (tbg : BindGroup) (su : BindGroup)
       (obg : BindGroup) (oobj : List InternalObject)
       (data : GPUIndirectData),
       ∃ cmds, p.draw ⟨mats, smp, dl, .GPU tbg, su, ⟨obg, oobj, .GPU data⟩⟩
           = some cmds ∧
         cmds.all (fun c => ! c.isHostDraw) = true) := by
  refine ⟨?_, ?_, ?_, ?_, ?_⟩
  · intro self dev enc culler mats ifc cam objs
    cases culler with
    | CPU cc =>
        refine ⟨Or.inl ⟨⟨_, rfl⟩, ?_⟩, rfl⟩
        rintro ⟨g, hg⟩
        exact ModeData.noConfusion hg
    | GPU gcl =>
        refine ⟨Or.inr ⟨⟨_, rfl⟩, ?_⟩, rfl⟩
        rintro ⟨d, hd⟩
        exact ModeData.noConfusion hd
  · intro p mats smp tex obg oobj draws
    refine ⟨_, prepass_cpu_eq p mats smp tex obg oobj draws, ?_⟩
    rw [List.all_eq_true]
    intro c hc
    simp only [List.mem_cons] at hc
    rcases hc with rfl | rfl | rfl | rfl | hc
    · rfl
    · rfl
    · rfl
    · rfl
    · exact cpuRun_no_indirect c hc
  · intro p mats smp tbg obg oobj data
    refine ⟨_, prepass_gpu_eq p mats smp tbg obg oobj data, ?_⟩
    simp [RenderCommand.isHostDraw]
  · intro p mats smp dl tex su obg oobj draws
    refine ⟨_, draw_cpu_eq p mats smp dl tex su obg oobj draws, ?_⟩
    rw [List.all_eq_true]
    intro c hc
    simp only [List.mem_cons] at hc
    rcases hc with rfl | rfl | rfl | rfl | rfl | rfl | hc
    · rfl
    · rfl
    · rfl
    · rfl
    · rfl
    · rfl
    · exact cpuRun_no_indirect c hc
  · intro p mats smp dl tbg su obg oobj data
    refine ⟨_, draw_gpu_eq p mats smp dl tbg su obg oobj data, ?_⟩
    simp [RenderCommand.isHostDraw]

/-- C3: `cull_opaque` dispatches to the host culler under the CPU strategy
— a pure computation that neither hands over nor changes the encoder — and
to the device culler under the GPU strategy, whose only encoder effect is
appending commands. -/
theorem cull_opaque_dispatch :
    (∀ (self : OpaquePass) (dev : Device) (enc : CommandEncoder)
       (cc : CpuCuller) (mats : MaterialManager) (ifc : ShaderInterfaces)
       (cam : CameraManager) (objs : List InternalObject),
       OpaquePass.cull_opaque self ⟨dev, enc, .CPU cc, mats, ifc, cam, objs⟩ =
         (cc.cull ⟨dev, cam, ifc, objs⟩, enc)) ∧
    (∀ (self : OpaquePass) (dev : Device) (enc1 enc2 : CommandEncoder)
       (cc : CpuCuller) (mats : MaterialManager) (ifc : ShaderInterfaces)
       (cam : CameraManager) (objs : List InternalObject),
       (OpaquePass.cull_opaque self ⟨dev, enc1, .CPU cc, mats, ifc, cam, objs⟩).1 =
       (OpaquePass.cull_opaque self ⟨dev, enc2, .CPU cc, mats, ifc, cam, objs⟩).1) ∧
    (∀ (self : OpaquePass) (dev : Device) (enc : CommandEncoder)
       (gcl : GpuCuller) (mats : MaterialManager) (ifc : ShaderInterfaces)
       (cam : CameraManager) (objs : List InternalObject),
       OpaquePass.cull_opaque self ⟨dev, enc, .GPU gcl, mats, ifc, cam, objs⟩ =
         gcl.cull ⟨dev, enc, ifc, mats, cam, objs⟩ ∧
       ∃ appended,
         (OpaquePass.cull_opaque self
           ⟨dev, enc, .GPU gcl, mats, ifc, cam, objs⟩).2.commands =
           enc.commands ++ appended) := by
  refine ⟨fun _ _ _ _ _ _ _ _ => rfl, fun _ _ _ _ _ _ _ _ _ => rfl,
          fun _ _ _ _ _ _ _ _ => ⟨rfl, ⟨_, rfl⟩⟩⟩

/-- C4: prepass binds the sampler group at slot 0 and the culled output at
slot 1 and uses no slot above 3, with device mode adding the material
table at 2 and the texture array at 3; draw binds samplers at 0, culled
output at 1, the directional light at 2 and the shader uniforms at 3 and
uses no slot above 5, with device mode adding the table at 4 and the
texture at 5; the host per-batch material slot in draw is the prepass one
(2) plus the fixed offset 2. -/
theorem bind_slot_layout :
    (∀ (p : OpaquePass) (mats : MaterialManager) (smp : Samplers)
       (tex : ModeData Unit BindGroup) (obg : BindGroup)
       (oobj : List InternalObject) (draws : List CPUDrawCall),
       ∃ cmds, p.prepass ⟨mats, smp, tex, ⟨obg, oobj, .CPU draws⟩⟩ =
           some cmds ∧
         RenderCommand.setBindGroup 0 smp.linear_nearest_bg ∈ cmds ∧
         RenderCommand.setBindGroup 1 obg ∈ cmds ∧
         slotsOf cmds = 0 :: 1 :: List.replicate draws.length 2 ∧
         (∀ s ∈ slotsOf cmds, s ≤ 3)) ∧
    (∀ (p : OpaquePass) (mats : MaterialManager) (smp : Samplers)
       (tbg : BindGroup) (obg : BindGroup) (oobj : List InternalObject)
       (data : GPUIndirectData),
       ∃ cmds, p.prepass ⟨mats, smp, .GPU tbg, ⟨obg, oobj, .GPU data⟩⟩ =
           some cmds ∧
         RenderCommand.setBindGroup 0 smp.linear_nearest_bg ∈ cmds ∧
         RenderCommand.setBindGroup 1 obg ∈ cmds ∧
         RenderCommand.setBindGroup 2 mats.gpu_get_bind_group ∈ cmds ∧
         RenderCommand.setBindGroup 3 tbg ∈ cmds ∧
         slotsOf cmds = [0, 1, 2, 3] ∧
         (∀ s ∈ slotsOf cmds, s ≤ 3)) ∧
    (∀ (p : OpaquePass) (mats : MaterialManager) (smp : Samplers)
       (dl : BindGroup) (tex : ModeData Unit BindGroup) (su : BindGroup)
       (obg : BindGroup) (oobj : List InternalObject)
       (draws : List CPUDrawCall),
       ∃ cmds, p.draw ⟨mats, smp, dl, tex, su, ⟨obg, oobj, .CPU draws⟩⟩ =
           some cmds ∧
         RenderCommand.setBindGroup 0 smp.linear_nearest_bg ∈ cmds ∧
         RenderCommand.setBindGroup 1 obg ∈ cmds ∧
         RenderCommand.setBindGroup 2 dl ∈ cmds ∧
         RenderCommand.setBindGroup 3 su ∈ cmds ∧
         slotsOf cmds = 0 :: 1 :: 2 :: 3 ::
           List.replicate draws.length (2 + 2) ∧
         (∀ s ∈ slotsOf cmds, s ≤ 5)) ∧
    (∀ (p : OpaquePass) (mats : MaterialManager) (smp : Samplers)
       (dl : BindGroup) (tbg : BindGroup) (su : BindGroup)
       (obg : BindGroup) (oobj : List InternalObject)
       (data : GPUIndirectData),
       ∃ cmds, p.draw ⟨mats, smp, dl, .GPU tbg, su, ⟨obg, oobj, .GPU data⟩⟩
           = some cmds ∧
         RenderCommand.setBindGroup 0 smp.linear_nearest_bg ∈ cmds ∧
         RenderCommand.setBindGroup 1 obg ∈ cmds ∧
         RenderCommand.setBindGroup 2 dl ∈ cmds ∧
         RenderCommand.setBindGroup 3 su ∈ cmds ∧
         RenderCommand.setBindGroup 4 mats.gpu_get_bind_group ∈ cmds ∧
         RenderCommand.setBindGroup 5 tbg ∈ cmds ∧
         slotsOf cmds = [0, 1, 2, 3, 4, 5] ∧
         (∀ s ∈ slotsOf cmds, s ≤ 5)) := by
  refine ⟨?_, ?_, ?_, ?_⟩
  · intro p mats smp tex obg oobj draws
    refine ⟨_, prepass_cpu_eq p mats smp tex obg oobj draws,
            by simp, by simp, ?_, ?_⟩
    · simp [slotsOf, slotsOf_cpuRun]
    · intro s hs
      simp only [slotsOf, slotsOf_cpuRun, List.mem_cons,
                 List.mem_replicate] at hs
      rcases hs with rfl | rfl | ⟨-, rfl⟩ <;> omega
  · intro p mats smp tbg obg oobj data
    refine ⟨_, prepass_gpu_eq p mats smp tbg obg oobj data,
            by simp, by simp, by simp, by simp, by simp [slotsOf], ?_⟩
    intro s hs
    simp only [slotsOf, List.mem_cons, List.not_mem_nil, or_false] at hs
    rcases hs with rfl | rfl | rfl | rfl <;> omega
  · intro p mats smp dl tex su obg oobj draws
    refine ⟨_, draw_cpu_eq p mats smp dl tex su obg oobj draws,
            by simp, by simp, by simp, by simp, ?_, ?_⟩
    · simp [slotsOf, slotsOf_cpuRun]
    · intro s hs
      simp only [slotsOf, slotsOf_cpuRun, List.mem_cons,
                 List.mem_replicate] at hs
      rcases hs with rfl | rfl | rfl | rfl | ⟨-, rfl⟩ <;> omega
  · intro p mats smp dl tbg su obg oobj data
    refine ⟨_, draw_gpu_eq p mats smp dl tbg su obg oobj data,
            by simp, by simp, by simp, by simp, by simp, by simp,
            by simp [slotsOf], ?_⟩
    intro s hs
    simp only [slotsOf, List.mem_cons, List.not_mem_nil, or_false] at hs
    rcases hs with rfl | rfl | rfl | rfl | rfl | rfl <;> omega

/-- C5 counterexample: at a concrete device-mode input, prepass binds a
material-table resource at slot 2, while draw binds no material-table
resource at slot 2 (the directional light sits there) — so the draw layout
is not a slot-wise superset of the prepass layout. -/
theorem draw_layout_not_slotwise_superset :
    (2, BindingKind.materialTable) ∈
      bindsOf (((OpaquePass.new 0 1).prepass
        ⟨⟨0⟩, ⟨⟨.samplers, 0⟩⟩, .GPU ⟨.textureArray, 0⟩,
         ⟨⟨.culledOutput, 0⟩, [], .GPU ⟨[]⟩⟩⟩).getD []) ∧
    ¬ ((2, BindingKind.materialTable) ∈
      bindsOf (((OpaquePass.new 0 1).draw
        ⟨⟨0⟩, ⟨⟨.samplers, 0⟩⟩, ⟨.directionalLight, 0⟩,
         .GPU ⟨.textureArray, 0⟩, ⟨.shaderUniform, 0⟩,
         ⟨⟨.culledOutput, 0⟩, [], .GPU ⟨[]⟩⟩⟩).getD [])) := by
  decide

/-- C5 amended: draw's first two bindings agree with prepass's (same kind
at slots 0 and 1); every resource kind that prepass binds at a slot ≥ 2 is
bound by draw at that slot plus the fixed offset 2; draw's additional
directional-light and shader-uniform bindings occupy slots 2 and 3. -/
theorem draw_layout_shifted_superset :
    (∀ (p : OpaquePass) (mats : MaterialManager) (smp : Samplers)
       (tex : ModeData Unit BindGroup) (dl : BindGroup) (su : BindGroup)
       (obg : BindGroup) (oobj : List InternalObject)
       (draws : List CPUDrawCall),
       ∃ pc dc,
         p.prepass ⟨mats, smp, tex, ⟨obg, oobj, .CPU draws⟩⟩ = some pc ∧
         p.draw ⟨mats, smp, dl, tex, su, ⟨obg, oobj, .CPU draws⟩⟩ =
           some dc ∧
         (bindsOf pc).take 2 = (bindsOf dc).take 2 ∧
         (∀ s k, (s, k) ∈ bindsOf pc → 2 ≤ s → (s + 2, k) ∈ bindsOf dc) ∧
         (2, dl.kind) ∈ bindsOf dc ∧ (3, su.kind) ∈ bindsOf dc) ∧
    (∀ (p : OpaquePass) (mats : MaterialManager) (smp : Samplers)
       (tbg : BindGroup) (dl : BindGroup) (su : BindGroup)
       (obg : BindGroup) (oobj : List InternalObject)
       (data : GPUIndirectData),
       ∃ pc dc,
         p.prepass ⟨mats, smp, .GPU tbg, ⟨obg, oobj, .GPU data⟩⟩ =
           some pc ∧
         p.draw ⟨mats, smp, dl, .GPU tbg, su, ⟨obg, oobj, .GPU data⟩⟩ =
           some dc ∧
         (bindsOf pc).take 2 = (bindsOf dc).take 2 ∧
         (∀ s k, (s, k) ∈ bindsOf pc → 2 ≤ s → (s + 2, k) ∈ bindsOf dc) ∧
         (2, dl.kind) ∈ bindsOf dc ∧ (3, su.kind) ∈ bindsOf dc) := by
  constructor
  · intro p mats smp tex dl su obg oobj draws
    refine ⟨_, _, prepass_cpu_eq p mats smp tex obg oobj draws,
            draw_cpu_eq p mats smp dl tex su obg oobj draws,
            by simp [bindsOf], ?_, by simp [bindsOf], by simp [bindsOf]⟩
    intro s k hm h2
    simp only [bindsOf, bindsOf_cpuRun, List.mem_cons,
               List.mem_replicate] at hm
    rcases hm with h | h | ⟨hn, h⟩
    · rw [Prod.mk.injEq] at h
      exfalso; omega
    · rw [Prod.mk.injEq] at h
      exfalso; omega
    · rw [Prod.mk.injEq] at h
      obtain ⟨hs, hk⟩ := h
      subst hs; subst hk
      simp only [bindsOf, bindsOf_cpuRun, List.mem_cons,
                 List.mem_replicate]
      exact Or.inr (Or.inr (Or.inr (Or.inr ⟨hn, trivial⟩)))
  · intro p mats smp tbg dl su obg oobj data
    refine ⟨_, _, prepass_gpu_eq p mats smp tbg obg oobj data,
            draw_gpu_eq p mats smp dl tbg su obg oobj data,
            by simp [bindsOf], ?_, by simp [bindsOf], by simp [bindsOf]⟩
    intro s k hm h2
    simp only [bindsOf, List.mem_cons, List.not_mem_nil, or_false] at hm
    rcases hm with h | h | h | h
    · rw [Prod.mk.injEq] at h
      exfalso; omega
    · rw [Prod.mk.injEq] at h
      exfalso; omega
    · rw [Prod.mk.injEq] at h
      obtain ⟨hs, hk⟩ := h
      subst hs; subst hk
      simp [bindsOf]
    · rw [Prod.mk.injEq] at h
      obtain ⟨hs, hk⟩ := h
      subst hs; subst hk
      simp [bindsOf]

/-- C6: a strategy/tag mismatch fails loudly rather than degrading to a
partial draw: reaching the device branch of prepass or draw without a
device-mode texture binding panics (none, no commands survive), and a
device-tagged culled set is never processed by the host draw-emission
branch — its successful output contains no host-emitted draw and no
per-batch material rebind. -/
theorem mismatch_fails_loudly :
    (∀ (p : OpaquePass) (mats : MaterialManager) (smp : Samplers)
       (obg : BindGroup) (oobj : List InternalObject)
       (data : GPUIndirectData),
       p.prepass ⟨mats, smp, .CPU (), ⟨obg, oobj, .GPU data⟩⟩ = none) ∧
    (∀ (p : OpaquePass) (mats : MaterialManager) (smp : Samplers)
       (dl : BindGroup) (su : BindGroup) (obg : BindGroup)
       (oobj : List InternalObject) (data : GPUIndirectData),
       p.draw ⟨mats, smp, dl, .CPU (), su, ⟨obg, oobj, .GPU data⟩⟩ =
         none) ∧
    (∀ (p : OpaquePass) (mats : MaterialManager) (smp : Samplers)
       (tbg : BindGroup) (obg : BindGroup) (oobj : List InternalObject)
       (data : GPUIndirectData),
       ∃ cmds, p.prepass ⟨mats, smp, .GPU tbg, ⟨obg, oobj, .GPU data⟩⟩ =
           some cmds ∧
         cmds.all (fun c => ! c.isHostDraw) = true ∧
         (∀ d : CPUDrawCall, RenderCommand.drawIndexed d ∉ cmds)) ∧
    (∀ (p : OpaquePass) (mats : MaterialManager) (smp : Samplers)
       (dl : BindGroup) (tbg : BindGroup) (su : BindGroup)
       (obg : BindGroup) (oobj : List InternalObject)
       (data : GPUIndirectData),
       ∃ cmds, p.draw ⟨mats, smp, dl, .GPU tbg, su, ⟨obg, oobj, .GPU data⟩⟩
           = some cmds ∧
         cmds.all (fun c => ! c.isHostDraw) = true) := by
  refine ⟨?_, ?_, ?_, ?_⟩
  · intro p mats smp obg oobj data
    exact prepass_gpu_no_tex p mats smp obg oobj data
  · intro p mats smp dl su obg oobj data
    exact draw_gpu_no_tex p mats smp dl su obg oobj data
  · intro p mats smp tbg obg oobj data
    refine ⟨_, prepass_gpu_eq p mats smp tbg obg oobj data,
            by simp [RenderCommand.isHostDraw], ?_⟩
    intro d hm
    simp at hm
  · intro p mats smp dl tbg su obg oobj data
    refine ⟨_, draw_gpu_eq p mats smp dl tbg su obg oobj data, ?_⟩
    simp [RenderCommand.isHostDraw]

/-- C7 counterexample: with the strategy tag fixed to host, the slot
sequence issued by prepass differs between an empty culled set and a
one-batch culled set ([0, 1] versus [0, 1, 2]), so the sequence is not a
fixed sequence determined by the strategy tag alone — it depends on the
objects. -/
theorem slot_sequence_not_input_independent :
    Option.map slotsOf ((OpaquePass.new 0 1).prepass
      ⟨⟨0⟩, ⟨⟨.samplers, 0⟩⟩, .CPU (),
       ⟨⟨.culledOutput, 0⟩, [], .CPU []⟩⟩) = some [0, 1] ∧
    Option.map slotsOf ((OpaquePass.new 0 1).prepass
      ⟨⟨0⟩, ⟨⟨.samplers, 0⟩⟩, .CPU (),
       ⟨⟨.culledOutput, 0⟩, [], .CPU [⟨0, 0, 0, 1⟩]⟩⟩)
      = some [0, 1, 2] ∧
    Option.map slotsOf ((OpaquePass.new 0 1).prepass
      ⟨⟨0⟩, ⟨⟨.samplers, 0⟩⟩, .CPU (),
       ⟨⟨.culledOutput, 0⟩, [], .CPU []⟩⟩) ≠
    Option.map slotsOf ((OpaquePass.new 0 1).prepass
      ⟨⟨0⟩, ⟨⟨.samplers, 0⟩⟩, .CPU (),
       ⟨⟨.culledOutput, 0⟩, [], .CPU [⟨0, 0, 0, 1⟩]⟩⟩) := by
  decide

/-- C7 amended: the slot indices issued by prepass and draw come from a
fixed per-strategy table that never depends on the frame or the inputs: in
device mode the whole sequence is the constant [0,1,2,3] (prepass) or
[0,1,2,3,4,5] (draw); in host mode it is the constant head [0,1] (prepass)
or [0,1,2,3] (draw) followed by one occurrence of the constant material
slot (2, respectively 4) per batch — only the batch count varies, never
the slot indices. -/
theorem slot_table_fixed_per_strategy :
    (∀ (p : OpaquePass) (mats : MaterialManager) (smp : Samplers)
       (tex : ModeData Unit BindGroup) (obg : BindGroup)
       (oobj : List InternalObject) (draws : List CPUDrawCall),
       Option.map slotsOf
           (p.prepass ⟨mats, smp, tex, ⟨obg, oobj, .CPU draws⟩⟩) =
         some (0 :: 1 :: List.replicate draws.length 2)) ∧
    (∀ (p : OpaquePass) (mats : MaterialManager) (smp : Samplers)
       (tbg : BindGroup) (obg : BindGroup) (oobj : List InternalObject)
       (data : GPUIndirectData),
       Option.map slotsOf
           (p.prepass ⟨mats, smp, .GPU tbg, ⟨obg, oobj, .GPU data⟩⟩) =
         some [0, 1, 2, 3]) ∧
    (∀ (p : OpaquePass) (mats : MaterialManager) (smp : Samplers)
       (dl : BindGroup) (tex : ModeData Unit BindGroup) (su : BindGroup)
       (obg : BindGroup) (oobj : List InternalObject)
       (draws : List CPUDrawCall),
       Option.map slotsOf
           (p.draw ⟨mats, smp, dl, tex, su, ⟨obg, oobj, .CPU draws⟩⟩) =
         some (0 :: 1 :: 2 :: 3 :: List.replicate draws.length 4)) ∧
    (∀ (p : OpaquePass) (mats : MaterialManager) (smp : Samplers)
       (dl : BindGroup) (tbg : BindGroup) (su : BindGroup)
       (obg : BindGroup) (oobj : List InternalObject)
       (data : GPUIndirectData),
       Option.map slotsOf
           (p.draw ⟨mats, smp, dl, .GPU tbg, su, ⟨obg, oobj, .GPU data⟩⟩) =
         some [0, 1, 2, 3, 4, 5]) := by
  refine ⟨?_, ?_, ?_, ?_⟩
  · intro p mats smp tex obg oobj draws
    rw [prepass_cpu_eq]
    simp [slotsOf, slotsOf_cpuRun]
  · intro p mats smp tbg obg oobj data
    rw [prepass_gpu_eq]
    simp [slotsOf]
  · intro p mats smp dl tex su obg oobj draws
    rw [draw_cpu_eq]
    simp [slotsOf, slotsOf_cpuRun]
  · intro p mats smp dl tbg su obg oobj data
    rw [draw_gpu_eq]
    simp [slotsOf]

/-- C8: the opaque pass consists of exactly the two pipeline handles
stored at construction by `new`, and `cull_opaque`, `prepass` and `draw`
never modify them: each operation is a pure function of the two handles
and its arguments, so the pass carries no mutable state between frames. -/
theorem opaque_pass_stateless :
    (∀ d o, (OpaquePass.new d o).depth_pipeline = d ∧
            (OpaquePass.new d o).opaque_pipeline = o) ∧
    (∀ p : OpaquePass,
       p = OpaquePass.new p.depth_pipeline p.opaque_pipeline) ∧
    (∀ (p : OpaquePass) (a : OpaquePassCullArgs),
       OpaquePass.cull_opaque p a =
         OpaquePass.cull_opaque
           (OpaquePass.new p.depth_pipeline p.opaque_pipeline) a) ∧
    (∀ (p : OpaquePass) (a : OpaquePassPrepassArgs),
       p.prepass a =
         (OpaquePass.new p.depth_pipeline p.opaque_pipeline).prepass a) ∧
    (∀ (p : OpaquePass) (a : OpaquePassDrawArgs),
       p.draw a =
         (OpaquePass.new p.depth_pipeline p.opaque_pipeline).draw a) :=
  ⟨fun _ _ => ⟨rfl, rfl⟩, fun _ => rfl, fun _ _ => rfl, fun _ _ => rfl,
   fun _ _ => rfl⟩

/-- C9: prepass records, in this order: the mesh-buffer bind, the
depth-only pipeline, the sampler group at slot 0, the culled output at
slot 1, then one branch on the strategy tag — per-batch material rebind
plus draw call per host batch, or the material table and texture-array
binds once followed by the single indirect draw; draw has the same shape
with the opaque pipeline and its lighting/uniform binds. -/
theorem pass_command_order :
    (∀ (p : OpaquePass) (mats : MaterialManager) (smp : Samplers)
       (tex : ModeData Unit BindGroup) (obg : BindGroup)
       (oobj : List InternalObject) (draws : List CPUDrawCall),
       p.prepass ⟨mats, smp, tex, ⟨obg, oobj, .CPU draws⟩⟩ =
         some (.bindMeshBuffers :: .setPipeline p.depth_pipeline ::
               .setBindGroup 0 smp.linear_nearest_bg ::
               .setBindGroup 1 obg :: cpuRun draws smp 0 mats 2)) ∧
    (∀ (p : OpaquePass) (mats : MaterialManager) (smp : Samplers)
       (tbg : BindGroup) (obg : BindGroup) (oobj : List InternalObject)
       (data : GPUIndirectData),
       p.prepass ⟨mats, smp, .GPU tbg, ⟨obg, oobj, .GPU data⟩⟩ =
         some [.bindMeshBuffers, .setPipeline p.depth_pipeline,
               .setBindGroup 0 smp.linear_nearest_bg, .setBindGroup 1 obg,
               .setBindGroup 2 mats.gpu_get_bind_group,
               .setBindGroup 3 tbg, .multiDrawIndirect data]) ∧
    (∀ (p : OpaquePass) (mats : MaterialManager) (smp : Samplers)
       (dl : BindGroup) (tex : ModeData Unit BindGroup) (su : BindGroup)
       (obg : BindGroup) (oobj : List InternalObject)
       (draws : List CPUDrawCall),
       p.draw ⟨mats, smp, dl, tex, su, ⟨obg, oobj, .CPU draws⟩⟩ =
         some (.bindMeshBuffers :: .setPipeline p.opaque_pipeline ::
               .setBindGroup 0 smp.linear_nearest_bg ::
               .setBindGroup 1 obg :: .setBindGroup 2 dl ::
               .setBindGroup 3 su :: cpuRun draws smp 0 mats 4)) ∧
    (∀ (p : OpaquePass) (mats : MaterialManager) (smp : Samplers)
       (dl : BindGroup) (tbg : BindGroup) (su : BindGroup)
       (obg : BindGroup) (oobj : List InternalObject)
       (data : GPUIndirectData),
       p.draw ⟨mats, smp, dl, .GPU tbg, su, ⟨obg, oobj, .GPU data⟩⟩ =
         some [.bindMeshBuffers, .setPipeline p.opaque_pipeline,
               .setBindGroup 0 smp.linear_nearest_bg, .setBindGroup 1 obg,
               .setBindGroup 2 dl, .setBindGroup 3 su,
               .setBindGroup 4 mats.gpu_get_bind_group,
               .setBindGroup 5 tbg, .multiDrawIndirect data]) :=
  ⟨prepass_cpu_eq, prepass_gpu_eq, draw_cpu_eq, draw_gpu_eq⟩

/-- Witness for C2 at a concrete input: the host-configured renderer
produces a host-tagged culled set. -/
theorem culled_set_tag_invariant_witness :
    (OpaquePass.cull_opaque (OpaquePass.new 0 1)
      ⟨⟨0⟩, ⟨[]⟩, .CPU ⟨0⟩, ⟨0⟩, ⟨0⟩, ⟨fun _ => true⟩, []⟩).1.calls.mode =
    (ModeData.CPU (⟨0⟩ : CpuCuller) :
      ModeData CpuCuller GpuCuller).mode :=
  (culled_set_tag_invariant.1 (OpaquePass.new 0 1) ⟨0⟩ ⟨[]⟩ (.CPU ⟨0⟩)
    ⟨0⟩ ⟨0⟩ ⟨fun _ => true⟩ []).2

/-- Witness for C4 at a concrete input: slot 2 is issued by a one-batch
host prepass and respects the bound 3. -/
theorem bind_slot_layout_witness :
    2 ∈ slotsOf (((OpaquePass.new 0 1).prepass
      ⟨⟨0⟩, ⟨⟨.samplers, 0⟩⟩, .CPU (),
       ⟨⟨.culledOutput, 0⟩, [], .CPU [⟨0, 0, 0, 1⟩]⟩⟩).getD []) ∧
    2 ≤ 3 := by
  obtain ⟨cmds, hsome, h0, h1, hslots, hb⟩ :=
    bind_slot_layout.1 (OpaquePass.new 0 1) ⟨0⟩ ⟨⟨.samplers, 0⟩⟩
      (.CPU ()) ⟨.culledOutput, 0⟩ [] [⟨0, 0, 0, 1⟩]
  have hmem : (2 : Nat) ∈ slotsOf cmds := by
    rw [hslots]; decide
  refine ⟨?_, hb 2 hmem⟩
  rw [hsome]
  exact hmem

/-- Witness for C5's amended theorem at a concrete device-mode input: the
material table bound at slot 2 by prepass is bound at slot 2 + 2 by
draw. -/
theorem draw_layout_shifted_superset_witness :
    (2, BindingKind.materialTable) ∈
      bindsOf [RenderCommand.bindMeshBuffers, .setPipeline 0,
        .setBindGroup 0 ⟨.samplers, 0⟩, .setBindGroup 1 ⟨.culledOutput, 0⟩,
        .setBindGroup 2 ⟨.materialTable, 0⟩,
        .setBindGroup 3 ⟨.textureArray, 0⟩, .multiDrawIndirect ⟨[]⟩] ∧
    2 ≤ 2 ∧
    (2 + 2, BindingKind.materialTable) ∈
      bindsOf [RenderCommand.bindMeshBuffers, .setPipeline 1,
        .setBindGroup 0 ⟨.samplers, 0⟩, .setBindGroup 1 ⟨.culledOutput, 0⟩,
        .setBindGroup 2 ⟨.directionalLight, 0⟩,
        .setBindGroup 3 ⟨.shaderUniform, 0⟩,
        .setBindGroup 4 ⟨.materialTable, 0⟩,
        .setBindGroup 5 ⟨.textureArray, 0⟩, .multiDrawIndirect ⟨[]⟩] := by
  obtain ⟨pc, dc, hp, hd, _, hshift, _, _⟩ :=
    draw_layout_shifted_superset.2 (OpaquePass.new 0 1) ⟨0⟩
      ⟨⟨.samplers, 0⟩⟩ ⟨.textureArray, 0⟩ ⟨.directionalLight, 0⟩
      ⟨.shaderUniform, 0⟩ ⟨.culledOutput, 0⟩ [] ⟨[]⟩
  have hpc := Option.some.inj (hp.symm.trans rfl)
  have hdc := Option.some.inj (hd.symm.trans rfl)
  subst hpc
  subst hdc
  exact ⟨by decide, le_refl 2,
         hshift 2 .materialTable (by decide) (by decide)⟩

/-- Witness for C6 at a concrete input: the mismatched prepass panics, and
a concrete host draw command is absent from the device-mode emission. -/
theorem mismatch_fails_loudly_witness :
    (OpaquePass.new 0 1).prepass
      ⟨⟨0⟩, ⟨⟨.samplers, 0⟩⟩, .CPU (),
       ⟨⟨.culledOutput, 0⟩, [], .GPU ⟨[]⟩⟩⟩ = none ∧
    RenderCommand.drawIndexed ⟨0, 0, 0, 1⟩ ∉
      [RenderCommand.bindMeshBuffers, .setPipeline 0,
       .setBindGroup 0 ⟨.samplers, 0⟩, .setBindGroup 1 ⟨.culledOutput, 0⟩,
       .setBindGroup 2 ⟨.materialTable, 0⟩,
       .setBindGroup 3 ⟨.textureArray, 0⟩, .multiDrawIndirect ⟨[]⟩] := by
  refine ⟨mismatch_fails_loudly.1 (OpaquePass.new 0 1) ⟨0⟩
    ⟨⟨.samplers, 0⟩⟩ ⟨.culledOutput, 0⟩ [] ⟨[]⟩, ?_⟩
  obtain ⟨cmds, hsome, _, hnod⟩ :=
    mismatch_fails_loudly.2.2.1 (OpaquePass.new 0 1) ⟨0⟩
      ⟨⟨.samplers, 0⟩⟩ ⟨.textureArray, 0⟩ ⟨.culledOutput, 0⟩ [] ⟨[]⟩
  have hc := Option.some.inj (hsome.symm.trans rfl)
  subst hc
  exact hnod ⟨0, 0, 0, 1⟩
